import Mathlib

/-!
Verification development for the bntx library: a reader/writer for the
Nintendo Switch BNTX texture container with a DDS bridge.  The definitions
below are a shallow embedding of src/lib.rs and src/dds.rs; functions from
the external crates tegra_swizzle and ddsfile that the sources call are
modelled from the specification and marked as such in their doc comments.
Machine integers are modelled as Nat, with explicit reductions modulo
2 to the relevant power where a Rust cast or wrap-around occurs.
-/

namespace Bntx

/-! ## Basic arithmetic helpers -/

/-- Rust helper in src/lib.rs: `fn align(x, n) = (x + n - 1) & !(n - 1)`.
For the powers of two this library uses, the bit mask equals rounding up to
the next multiple of n, which is how we express it. -/
def align (x n : Nat) : Nat := (x + n - 1) / n * n

/-- Modelled from the spec: tegra_swizzle's `div_round_up`, ceiling division. -/
def div_round_up (x d : Nat) : Nat := (x + d - 1) / d

/-- Fuel-driven helper for `round_up_pow2`: doubles the result while halving
(round-up) the argument; the fuel makes the recursion structural so that it
evaluates inside the kernel. -/
def pow2_cover : Nat → Nat → Nat
  | _, 0 => 1
  | n, fuel + 1 => if n ≤ 1 then 1 else 2 * pow2_cover (div_round_up n 2) fuel

/-- Modelled from the spec: round up to the next power of two (used for block
height selection); `n` itself is always enough fuel. -/
def round_up_pow2 (n : Nat) : Nat := pow2_cover n n

/-- Wrap-around bound of a 64-bit machine integer. -/
def U64_MOD : Nat := 2 ^ 64

/-! ## Little-endian serializers (binrw writes all integers little-endian) -/

def u16le (n : Nat) : List Nat := [n % 256, n / 256 % 256]

def u32le (n : Nat) : List Nat :=
  [n % 256, n / 256 % 256, n / 65536 % 256, n / 16777216 % 256]

def u64le (n : Nat) : List Nat :=
  [n % 256, n / 2 ^ 8 % 256, n / 2 ^ 16 % 256, n / 2 ^ 24 % 256,
   n / 2 ^ 32 % 256, n / 2 ^ 40 % 256, n / 2 ^ 48 % 256, n / 2 ^ 56 % 256]

/-! ## Layout constants (src/lib.rs lines 20-35) -/

def BNTX_HEADER_SIZE : Nat := 0x20
def NX_HEADER_SIZE : Nat := 0x28
def HEADER_SIZE : Nat := BNTX_HEADER_SIZE + NX_HEADER_SIZE
def MEM_POOL_SIZE : Nat := 0x150
def DATA_PTR_SIZE : Nat := 8
def START_OF_STR_SECTION : Nat := HEADER_SIZE + MEM_POOL_SIZE + DATA_PTR_SIZE
def STR_HEADER_SIZE : Nat := 0x14
def EMPTY_STR_SIZE : Nat := 4
def FILENAME_STR_OFFSET : Nat := START_OF_STR_SECTION + STR_HEADER_SIZE + EMPTY_STR_SIZE
def BRTD_SECTION_START : Nat := 0xFF0
def SIZE_OF_BRTD : Nat := 0x10
def START_OF_TEXTURE_DATA : Nat := BRTD_SECTION_START + SIZE_OF_BRTD
def SIZE_OF_BRTI : Nat := 0xA0
def SIZE_OF_RELOC_SECTION : Nat := 8 + 4 * 4
def SIZE_OF_RELOC_ENTRY : Nat := 4 + 2 + 1 + 1

/-! ## Format catalog (src/lib.rs `SurfaceFormat`) -/

/-- Block dimensions of a pixel format; tegra_swizzle's `BlockDim` with the
NonZeroUsize components carried as plain Nat. -/
structure BlockDim where
  width : Nat
  height : Nat
  depth : Nat
deriving DecidableEq

def BlockDim.uncompressed : BlockDim := ⟨1, 1, 1⟩

def BlockDim.block_4x4 : BlockDim := ⟨4, 4, 1⟩

inductive SurfaceFormat
  | R8Unorm
  | R8G8B8A8Unorm
  | R8G8B8A8Srgb
  | B8G8R8A8Unorm
  | B8G8R8A8Srgb
  | BC1Unorm
  | BC1Srgb
  | BC2Unorm
  | BC2Srgb
  | BC3Unorm
  | BC3Srgb
  | BC4Unorm
  | BC4Snorm
  | BC5Unorm
  | BC5Snorm
  | BC6Sfloat
  | BC6Ufloat
  | BC7Unorm
  | BC7Srgb
deriving DecidableEq

/-- Wire-stable u32 codes of `SurfaceFormat` (the `#[brw(repr(u32))]` values). -/
def surface_format_code : SurfaceFormat → Nat
  | .R8Unorm => 0x0201
  | .R8G8B8A8Unorm => 0x0b01
  | .R8G8B8A8Srgb => 0x0b06
  | .B8G8R8A8Unorm => 0x0c01
  | .B8G8R8A8Srgb => 0x0c06
  | .BC1Unorm => 0x1a01
  | .BC1Srgb => 0x1a06
  | .BC2Unorm => 0x1b01
  | .BC2Srgb => 0x1b06
  | .BC3Unorm => 0x1c01
  | .BC3Srgb => 0x1c06
  | .BC4Unorm => 0x1d01
  | .BC4Snorm => 0x1d02
  | .BC5Unorm => 0x1e01
  | .BC5Snorm => 0x1e02
  | .BC6Sfloat => 0x1f05
  | .BC6Ufloat => 0x1f0a
  | .BC7Unorm => 0x2001
  | .BC7Srgb => 0x2006

/-- `SurfaceFormat::bytes_per_pixel` (bytes per pixel, or per block for BCn). -/
def SurfaceFormat.bytes_per_pixel : SurfaceFormat → Nat
  | .R8Unorm => 1
  | .R8G8B8A8Unorm => 4
  | .R8G8B8A8Srgb => 4
  | .B8G8R8A8Unorm => 4
  | .B8G8R8A8Srgb => 4
  | .BC1Unorm => 8
  | .BC1Srgb => 8
  | .BC2Unorm => 16
  | .BC2Srgb => 16
  | .BC3Unorm => 16
  | .BC3Srgb => 16
  | .BC4Unorm => 8
  | .BC4Snorm => 8
  | .BC5Unorm => 16
  | .BC5Snorm => 16
  | .BC6Sfloat => 16
  | .BC6Ufloat => 16
  | .BC7Unorm => 16
  | .BC7Srgb => 16

/-- `SurfaceFormat::block_dim`. -/
def SurfaceFormat.block_dim : SurfaceFormat → BlockDim
  | .R8Unorm => .uncompressed
  | .R8G8B8A8Unorm => .uncompressed
  | .R8G8B8A8Srgb => .uncompressed
  | .B8G8R8A8Unorm => .uncompressed
  | .B8G8R8A8Srgb => .uncompressed
  | .BC1Unorm => .block_4x4
  | .BC1Srgb => .block_4x4
  | .BC2Unorm => .block_4x4
  | .BC2Srgb => .block_4x4
  | .BC3Unorm => .block_4x4
  | .BC3Srgb => .block_4x4
  | .BC4Unorm => .block_4x4
  | .BC4Snorm => .block_4x4
  | .BC5Unorm => .block_4x4
  | .BC5Snorm => .block_4x4
  | .BC6Sfloat => .block_4x4
  | .BC6Ufloat => .block_4x4
  | .BC7Unorm => .block_4x4
  | .BC7Srgb => .block_4x4

/-! ## Swizzle engine (tegra_swizzle), modelled from the spec -/

/-- Modelled from the spec: tegra_swizzle's `block_height_mip0`.  The spec
(section 4.1) derives the mip-0 block height as the largest power of two
that fits, capped at 16: round the height in GOB rows (ceiling of
height / 8) up to a power of two, at least 1, at most 16. -/
def block_height_mip0 (height : Nat) : Nat :=
  min 16 (max 1 (round_up_pow2 (div_round_up height 8)))

/-- Modelled from the spec: tegra_swizzle's `mip_block_height`.  Section 4.1:
the block height of a mip is the mip-0 block height, halved as the height
shrinks (the power of two covering the height in GOB rows), never below 1. -/
def mip_block_height (mip_height bh0 : Nat) : Nat :=
  min bh0 (max 1 (round_up_pow2 (div_round_up mip_height 8)))

/-- Modelled from the spec: tegra_swizzle's `swizzled_mip_size`.  Section 4.1:
a GOB is 64 bytes wide by 8 rows (512 bytes); the surface is paved with
block_height GOBs vertically, and rows of GOB-blocks and depth slices are
padded to whole GOB-blocks.  So the size is
(width row bytes in whole GOBs) times (height in whole GOB-blocks) times
(block_height GOBs of 512 bytes) times depth. -/
def swizzled_mip_size (w h d block_height bpp : Nat) : Nat :=
  div_round_up (w * bpp) 64 * div_round_up h (block_height * 8) * block_height * 512 * d

/-- Linear (deswizzled) byte size of one mip level: the mip dimensions are the
surface dimensions shifted right by the mip index, clamped to at least 1 and
divided round-up by the block dimensions; one block holds bpp bytes. -/
def linear_mip_size (w h d : Nat) (bd : BlockDim) (bpp mip : Nat) : Nat :=
  div_round_up (max (w >>> mip) 1) bd.width *
    div_round_up (max (h >>> mip) 1) bd.height *
    div_round_up (max (d >>> mip) 1) bd.depth * bpp

/-- Sum of `linear_mip_size` over the first `mips` mip levels. -/
def linear_size_sum (w h d : Nat) (bd : BlockDim) (bpp : Nat) : Nat → Nat
  | 0 => 0
  | n + 1 => linear_size_sum w h d bd bpp n + linear_mip_size w h d bd bpp n

/-- Modelled from the spec: tegra_swizzle's `deswizzled_surface_size`, the
expected length of the linear pixel data for a whole surface. -/
def deswizzled_surface_size (w h d : Nat) (bd : BlockDim) (bpp mips layers : Nat) : Nat :=
  layers * linear_size_sum w h d bd bpp mips

/-- Swizzled byte size of mip `mip` under the per-mip geometry rule of
section 4.1 (this is exactly the per-iteration size computed by
`calculate_mipmap_offsets` in src/lib.rs). -/
def mip_size_at (w : Nat) (bd : BlockDim) (h d bh bpp mip : Nat) : Nat :=
  swizzled_mip_size
    (div_round_up (max (w >>> mip) 1) bd.width)
    (div_round_up (max (h >>> mip) 1) bd.height)
    (div_round_up (max (d >>> mip) 1) bd.depth)
    (mip_block_height (div_round_up (max (h >>> mip) 1) bd.height) bh)
    bpp

/-- Sum of `mip_size_at` for `n` mips starting at mip index `mip`. -/
def sum_mip_sizes_from (w : Nat) (bd : BlockDim) (h d bh bpp : Nat) : Nat → Nat → Nat
  | _, 0 => 0
  | mip, n + 1 =>
    mip_size_at w bd h d bh bpp mip + sum_mip_sizes_from w bd h d bh bpp (mip + 1) n

/-- Modelled from the spec: total swizzled size of a surface (all mips of all
layers; each swizzled mip size is already a multiple of 512 so the 512-byte
mip alignment of section 2 is automatic). -/
def swizzled_surface_size (w h d : Nat) (bd : BlockDim) (bh bpp mips layers : Nat) : Nat :=
  layers * sum_mip_sizes_from w bd h d bh bpp 0 mips

/-- Modelled from the spec: tegra_swizzle's error type (section 4.1 lists the
failure causes: zero dimension, zero bpp, data length mismatch, overflow). -/
inductive SwizzleError
  | zero_dimension
  | zero_bpp
  | mismatched_length
  | overflow
deriving DecidableEq

/-- Truncate or zero-extend a byte list to length `n`. -/
def pad_to (n : Nat) (xs : List Nat) : List Nat :=
  (xs ++ List.replicate n 0).take n

/-- Modelled from the spec: tegra_swizzle's `swizzle_surface`.  Section 4.1:
a total function that fails on a zero dimension, zero bytes-per-pixel or a
linear data length mismatch, and otherwise returns the swizzled bytes, whose
length is the total swizzled surface size.  The claims this file settles
inspect only the success condition and the output length, so the byte
permutation itself is abstracted as padding the linear bytes to the
swizzled size. -/
def swizzle_surface (w h d : Nat) (data : List Nat) (bd : BlockDim)
    (bh bpp mips layers : Nat) : Except SwizzleError (List Nat) :=
  if w = 0 ∨ h = 0 ∨ d = 0 then .error .zero_dimension
  else if bpp = 0 then .error .zero_bpp
  else if data.length ≠ deswizzled_surface_size w h d bd bpp mips layers then
    .error .mismatched_length
  else .ok (pad_to (swizzled_surface_size w h d bd bh bpp mips layers) data)

/-! ## Binary model (src/lib.rs structures) -/

/-- `BntxStr`: a pooled string; `chars` holds the raw bytes of the string
(the Rust field is a String written as its UTF-8 bytes). -/
structure BntxStr where
  chars : List Nat
deriving DecidableEq

/-- `BntxStr::get_size`: u16 length prefix, the bytes, a null terminator,
padded to 4 bytes. -/
def bntx_str_get_size (s : BntxStr) : Nat :=
  align (2 + s.chars.length + 1) 4

structure StrSection where
  block_size : Nat
  block_offset : Nat
  strings : List BntxStr
deriving DecidableEq

/-- `StrSection::get_size`. -/
def str_section_get_size (s : StrSection) : Nat :=
  align (5 * 4 + EMPTY_STR_SIZE + (s.strings.map bntx_str_get_size).sum) 8

structure DictNode where
  reference : Int
  left_index : Nat
  right_index : Nat
  name : BntxStr
deriving DecidableEq

structure DictSection where
  node_count : Nat
  nodes : List DictNode
deriving DecidableEq

/-- The fixed 40-byte `DICT_SECTION` blob the writer emits (src/lib.rs
line 639). -/
def dict_section_blob : List Nat :=
  [0x5F, 0x44, 0x49, 0x43, 0x01, 0x00, 0x00, 0x00,
   0xFF, 0xFF, 0xFF, 0xFF, 0x01, 0x00, 0x00, 0x00,
   0xB4, 0x01, 0x00, 0x00, 0x00, 0x00, 0x00, 0x00,
   0x01, 0x00, 0x00, 0x00, 0x00, 0x00, 0x01, 0x00,
   0xB8, 0x01, 0x00, 0x00, 0x00, 0x00, 0x00, 0x00]

/-- `DictSection::get_size` returns the blob length (40 bytes) regardless of
the parsed nodes. -/
def dict_section_get_size (_d : DictSection) : Nat := dict_section_blob.length

structure RelocationSection where
  pointer : Nat
  position : Nat
  size : Nat
  index : Nat
  count : Nat
deriving DecidableEq

structure RelocationEntry where
  position : Nat
  struct_count : Nat
  offset_count : Nat
  padding_count : Nat
deriving DecidableEq

structure RelocationTable where
  sections : List RelocationSection
  entries : List RelocationEntry
deriving DecidableEq

/-- `RelocationTable::get_size`. -/
def reloc_table_get_size (t : RelocationTable) : Nat :=
  4 + 4 + 4 + 4 + t.sections.length * SIZE_OF_RELOC_SECTION
    + t.entries.length * SIZE_OF_RELOC_ENTRY

/-- `Texture`: the mipmap offset table and the swizzled image bytes. -/
structure Texture where
  mipmap_offsets : List Nat
  image_data : List Nat
deriving DecidableEq

inductive TextureDimension
  | D1
  | D2
  | D3
deriving DecidableEq

/-- The `#[brw(repr(u8))]` codes of `TextureDimension`. -/
def texture_dimension_code : TextureDimension → Nat
  | .D1 => 1
  | .D2 => 2
  | .D3 => 3

inductive TextureViewDimension
  | D1
  | D2
  | D3
  | Cube
deriving DecidableEq

/-- The `#[brw(repr(u32))]` codes of `TextureViewDimension`. -/
def texture_view_dimension_code : TextureViewDimension → Nat
  | .D1 => 0
  | .D2 => 1
  | .D3 => 2
  | .Cube => 3

structure BrtiSection where
  size : Nat
  size2 : Nat
  flags : Nat
  texture_dimension : TextureDimension
  tile_mode : Nat
  swizzle : Nat
  mipmap_count : Nat
  multi_sample_count : Nat
  format : SurfaceFormat
  unk2 : Nat
  width : Nat
  height : Nat
  depth : Nat
  layer_count : Nat
  block_height_log2 : Nat
  unk4 : Nat × Nat × Nat × Nat × Nat × Nat
  image_size : Nat
  align : Nat
  comp_sel : Nat
  texture_view_dimension : TextureViewDimension
  name_addr : BntxStr
  parent_addr : Nat
  texture : Texture
deriving DecidableEq

inductive ByteOrder
  | LittleEndian
  | BigEndian
deriving DecidableEq

structure HeaderInner where
  revision : Nat
  file_name : List Nat
  str_section : StrSection
  reloc_table : RelocationTable
deriving DecidableEq

structure BntxHeader where
  version : Nat × Nat
  bom : ByteOrder
  inner : HeaderInner
deriving DecidableEq

structure NxHeader where
  dict : DictSection
  dict_size : Nat
  info_ptr : BrtiSection
deriving DecidableEq

structure BntxFile where
  header : BntxHeader
  nx_header : NxHeader
deriving DecidableEq

/-! ## Mipmap offset table (src/lib.rs `calculate_mipmap_offsets`) -/

/-- The loop of `calculate_mipmap_offsets`: `n` iterations remain, `mip` is
the current mip index, `off` the accumulated size (a usize, so it wraps at
2^64).  Each iteration pushes `START_OF_TEXTURE_DATA as u64 + offset as u64`
and adds the swizzled size of the current mip. -/
def mipmap_offsets_aux (w : Nat) (bd : BlockDim) (h d bh bpp : Nat) :
    Nat → Nat → Nat → List Nat
  | 0, _, _ => []
  | n + 1, mip, off =>
    (START_OF_TEXTURE_DATA + off) % U64_MOD ::
      mipmap_offsets_aux w bd h d bh bpp n (mip + 1)
        ((off + mip_size_at w bd h d bh bpp mip) % U64_MOD)

/-- `calculate_mipmap_offsets` (src/lib.rs lines 347-377). -/
def calculate_mipmap_offsets (mipmap_count w : Nat) (bd : BlockDim)
    (h d bh bpp : Nat) : List Nat :=
  mipmap_offsets_aux w bd h d bh bpp mipmap_count 0 0

/-! ## Construction from raw pixels (src/lib.rs `from_image_data`) -/

/-- The `match block_height` in `from_image_data` that converts the
`BlockHeight` enum to its log2. -/
def block_height_log2_of (bh : Nat) : Nat :=
  if bh = 1 then 0
  else if bh = 2 then 1
  else if bh = 4 then 2
  else if bh = 8 then 3
  else if bh = 16 then 4
  else 5

/-- `BntxFile::from_image_data` (src/lib.rs lines 157-334). -/
def from_image_data (name : List Nat) (width height depth mipmap_count layer_count : Nat)
    (format : SurfaceFormat) (data : List Nat) : Except SwizzleError BntxFile :=
  let block_dim := format.block_dim
  let block_height := block_height_mip0 (div_round_up height block_dim.height)
  let bh_log2 := block_height_log2_of block_height
  let bpp := format.bytes_per_pixel
  match swizzle_surface width height depth data block_dim block_height bpp
      mipmap_count layer_count with
  | .error e => .error e
  | .ok sdata =>
    let str_section : StrSection := ⟨0x58, 0x58, [⟨name⟩]⟩
    let str_size := str_section_get_size str_section
    let dict_size := dict_section_get_size ⟨0, []⟩
    let mipmap_offsets :=
      calculate_mipmap_offsets mipmap_count width block_dim height depth block_height bpp
    .ok
      { header :=
          { version := (0, 4)
            bom := .LittleEndian
            inner :=
              { revision := 0x400c
                file_name := name
                str_section := str_section
                reloc_table :=
                  { sections :=
                      [ { pointer := 0
                          position := 0
                          size := (START_OF_STR_SECTION + str_size + dict_size
                                    + SIZE_OF_BRTI + 0x208) % 2 ^ 32
                          index := 0
                          count := 4 }
                      , { pointer := 0
                          position := BRTD_SECTION_START
                          size := (sdata.length + SIZE_OF_BRTD) % 2 ^ 32
                          index := 4
                          count := 1 } ]
                    entries :=
                      [ { position := BNTX_HEADER_SIZE + 8
                          struct_count := 2
                          offset_count := 1
                          padding_count :=
                            (HEADER_SIZE + MEM_POOL_SIZE - (BNTX_HEADER_SIZE + 0x10)) / 8 % 256 }
                      , { position := BNTX_HEADER_SIZE + 0x18
                          struct_count := 2
                          offset_count := 2
                          padding_count :=
                            (START_OF_STR_SECTION + str_size + dict_size + 0x80
                              - HEADER_SIZE) / 8 % 256 }
                      , { position := (START_OF_STR_SECTION + str_size + 0x10) % 2 ^ 32
                          struct_count := 2
                          offset_count := 1
                          padding_count := 1 }
                      , { position := (START_OF_STR_SECTION + str_size + dict_size + 0x60) % 2 ^ 32
                          struct_count := 1
                          offset_count := 3
                          padding_count := 0 }
                      , { position := BNTX_HEADER_SIZE + 0x10
                          struct_count := 2
                          offset_count := 1
                          padding_count :=
                            (START_OF_STR_SECTION + str_size + dict_size + SIZE_OF_BRTI + 0x200
                              - (BNTX_HEADER_SIZE + 0x18)) / 8 % 256 } ] } } }
        nx_header :=
          { dict := ⟨0, []⟩
            dict_size := 0x58
            info_ptr :=
              { size := 3576
                size2 := 3576
                flags := 1
                texture_dimension := .D2
                tile_mode := 0
                swizzle := 0
                mipmap_count := mipmap_count % 2 ^ 16
                multi_sample_count := 1
                format := format
                unk2 := 32
                width := width
                height := height
                depth := depth
                layer_count := layer_count
                block_height_log2 := bh_log2
                unk4 := (65543, 0, 0, 0, 0, 0)
                image_size := sdata.length % 2 ^ 32
                align := 512
                comp_sel := 84148994
                texture_view_dimension := .D2
                name_addr := ⟨name⟩
                parent_addr := 32
                texture := ⟨mipmap_offsets, sdata⟩ } } }

/-! ## DDS bridge (src/dds.rs) -/

/-- ddsfile's `DxgiFormat`, restricted to the variants named in src/dds.rs;
`other_format` stands for every remaining variant of the crate's enum, all of
which fall into the wildcard arm of `image_format_from_dxgi`. -/
inductive DxgiFormat
  | R8_UNorm
  | R8G8B8A8_UNorm
  | R8G8B8A8_UNorm_sRGB
  | B8G8R8A8_UNorm
  | B8G8R8A8_UNorm_sRGB
  | BC1_UNorm
  | BC1_UNorm_sRGB
  | BC2_UNorm
  | BC2_UNorm_sRGB
  | BC3_UNorm
  | BC3_UNorm_sRGB
  | BC4_UNorm
  | BC4_SNorm
  | BC5_UNorm
  | BC5_SNorm
  | BC6H_SF16
  | BC6H_UF16
  | BC7_UNorm
  | BC7_UNorm_sRGB
  | other_format
deriving DecidableEq

/-- ddsfile's `D3DFormat`, restricted to the variants named in src/dds.rs;
`other_d3d` stands for the crate's remaining variants (wildcard arm). -/
inductive D3DFormat
  | DXT1
  | DXT2
  | DXT3
  | DXT4
  | DXT5
  | other_d3d
deriving DecidableEq

/-- A FourCC code as the little-endian u32 of its four ASCII bytes. -/
def fourcc_code (b0 b1 b2 b3 : Nat) : Nat :=
  b0 + 256 * b1 + 65536 * b2 + 16777216 * b3

def FOURCC_DXT1 : Nat := fourcc_code 0x44 0x58 0x54 0x31
def FOURCC_DXT2 : Nat := fourcc_code 0x44 0x58 0x54 0x32
def FOURCC_DXT3 : Nat := fourcc_code 0x44 0x58 0x54 0x33
def FOURCC_DXT4 : Nat := fourcc_code 0x44 0x58 0x54 0x34
def FOURCC_DXT5 : Nat := fourcc_code 0x44 0x58 0x54 0x35
def FOURCC_BC4_UNORM : Nat := fourcc_code 0x42 0x43 0x34 0x55
def FOURCC_BC4_SNORM : Nat := fourcc_code 0x42 0x43 0x34 0x53
def FOURCC_BC5_SNORM : Nat := fourcc_code 0x42 0x43 0x35 0x53
def FOURCC_BC5U : Nat := fourcc_code 0x42 0x43 0x35 0x55
def FOURCC_ATI2 : Nat := fourcc_code 0x41 0x54 0x49 0x32

/-- `image_format_from_dxgi` (src/dds.rs lines 75-97). -/
def image_format_from_dxgi : DxgiFormat → Option SurfaceFormat
  | .R8_UNorm => some .R8Unorm
  | .R8G8B8A8_UNorm_sRGB => some .R8G8B8A8Srgb
  | .B8G8R8A8_UNorm => some .B8G8R8A8Unorm
  | .B8G8R8A8_UNorm_sRGB => some .B8G8R8A8Srgb
  | .BC1_UNorm => some .BC1Unorm
  | .BC1_UNorm_sRGB => some .BC1Srgb
  | .BC2_UNorm => some .BC2Unorm
  | .BC2_UNorm_sRGB => some .BC2Srgb
  | .BC3_UNorm => some .BC3Unorm
  | .BC3_UNorm_sRGB => some .BC3Srgb
  | .BC4_UNorm => some .BC4Unorm
  | .BC4_SNorm => some .BC4Snorm
  | .BC5_UNorm => some .BC5Unorm
  | .BC5_SNorm => some .BC5Snorm
  | .BC6H_SF16 => some .BC6Sfloat
  | .BC6H_UF16 => some .BC6Ufloat
  | .BC7_UNorm => some .BC7Unorm
  | .BC7_UNorm_sRGB => some .BC7Srgb
  | _ => none

/-- `image_format_from_d3d` (src/dds.rs lines 99-109). -/
def image_format_from_d3d : D3DFormat → Option SurfaceFormat
  | .DXT1 => some .BC1Unorm
  | .DXT2 => some .BC2Unorm
  | .DXT3 => some .BC2Unorm
  | .DXT4 => some .BC3Unorm
  | .DXT5 => some .BC3Unorm
  | _ => none

/-- `image_format_from_fourcc` (src/dds.rs lines 114-127). -/
def image_format_from_fourcc (fourcc : Nat) : Option SurfaceFormat :=
  if fourcc = FOURCC_DXT1 then some .BC1Unorm
  else if fourcc = FOURCC_DXT2 then some .BC2Unorm
  else if fourcc = FOURCC_DXT3 then some .BC2Unorm
  else if fourcc = FOURCC_DXT4 then some .BC3Unorm
  else if fourcc = FOURCC_DXT5 then some .BC3Unorm
  else if fourcc = FOURCC_BC4_UNORM then some .BC4Unorm
  else if fourcc = FOURCC_BC4_SNORM then some .BC4Snorm
  else if fourcc = FOURCC_ATI2 ∨ fourcc = FOURCC_BC5U then some .BC5Unorm
  else if fourcc = FOURCC_BC5_SNORM then some .BC5Snorm
  else none

/-- `impl From SurfaceFormat for DxgiFormat` (src/dds.rs lines 129-153), a
total conversion. -/
def surface_format_to_dxgi : SurfaceFormat → DxgiFormat
  | .R8Unorm => .R8_UNorm
  | .R8G8B8A8Unorm => .R8G8B8A8_UNorm
  | .R8G8B8A8Srgb => .R8G8B8A8_UNorm_sRGB
  | .B8G8R8A8Unorm => .B8G8R8A8_UNorm
  | .B8G8R8A8Srgb => .B8G8R8A8_UNorm_sRGB
  | .BC1Unorm => .BC1_UNorm
  | .BC1Srgb => .BC1_UNorm_sRGB
  | .BC2Unorm => .BC2_UNorm
  | .BC2Srgb => .BC2_UNorm_sRGB
  | .BC3Unorm => .BC3_UNorm
  | .BC3Srgb => .BC3_UNorm_sRGB
  | .BC4Unorm => .BC4_UNorm
  | .BC4Snorm => .BC4_SNorm
  | .BC5Unorm => .BC5_UNorm
  | .BC5Snorm => .BC5_SNorm
  | .BC6Sfloat => .BC6H_SF16
  | .BC6Ufloat => .BC6H_UF16
  | .BC7Unorm => .BC7_UNorm
  | .BC7Srgb => .BC7_UNorm_sRGB

/-- Modelled from the spec: the DX10 extension header of a DDS file; only the
two fields the bridge reads (the misc flag carrying TEXTURECUBE and the
array size) are kept. -/
structure Header10 where
  misc_flag : Nat
  array_size : Nat
deriving DecidableEq

/-- D3D10_RESOURCE_MISC_TEXTURECUBE, the value of
`ddsfile::MiscFlag::TEXTURECUBE`. -/
def MISC_FLAG_TEXTURECUBE : Nat := 4

/-- Modelled from the spec: a ddsfile `Dds` container as seen through the
accessors src/dds.rs calls.  `width`, `height`, `depth` and
`num_mipmap_levels` are the results of `get_width`, `get_height`,
`get_depth` and `get_num_mipmap_levels`; `dxgi_format`, `d3d_format` and
`fourcc` are the results of `get_dxgi_format`, `get_d3d_format` and
`header.spf.fourcc`; `header10` is the optional DX10 extension header. -/
structure Dds where
  width : Nat
  height : Nat
  depth : Nat
  num_mipmap_levels : Nat
  header10 : Option Header10
  dxgi_format : Option DxgiFormat
  d3d_format : Option D3DFormat
  fourcc : Option Nat
  data : List Nat
deriving DecidableEq

/-- Modelled from the spec: ddsfile's `get_num_array_layers`, the DX10
header's array size, or 1 when there is no DX10 header. -/
def dds_num_array_layers (dds : Dds) : Nat :=
  match dds.header10 with
  | some h => h.array_size
  | none => 1

/-- The cubemap test of `layer_count` in src/dds.rs: a DX10 header is present
and its misc flag equals TEXTURECUBE. -/
def dds_cubemap_flagged (dds : Dds) : Bool :=
  match dds.header10 with
  | some h => h.misc_flag == MISC_FLAG_TEXTURECUBE
  | none => false

/-- `layer_count` (src/dds.rs lines 54-62).  The multiplication
`dds.get_num_array_layers() * 6` is a u32 multiplication, so it is reduced
modulo 2^32 (release-build wrap-around semantics; a debug build would panic
on the same overflow). -/
def layer_count (dds : Dds) : Nat :=
  if dds_cubemap_flagged dds then dds_num_array_layers dds * 6 % 2 ^ 32
  else dds_num_array_layers dds

/-- `dds_image_format` (src/dds.rs lines 64-73): DXGI, then D3D, then FourCC;
the first map that produces a format wins. -/
def dds_image_format (dds : Dds) : Option SurfaceFormat :=
  ((dds.dxgi_format.bind image_format_from_dxgi).orElse
      (fun _ => dds.d3d_format.bind image_format_from_d3d)).orElse
    (fun _ => dds.fourcc.bind image_format_from_fourcc)

/-- `create_bntx` (src/dds.rs lines 40-52).  The Rust code calls
`dds_image_format(dds).unwrap()`, which panics when no map recognizes the
format; the panic is modelled as the outer `Option.none`. -/
def create_bntx (name : List Nat) (dds : Dds) : Option (Except SwizzleError BntxFile) :=
  match dds_image_format dds with
  | none => none
  | some fmt =>
    some (from_image_data name dds.width dds.height dds.depth
      dds.num_mipmap_levels (layer_count dds) fmt dds.data)

/-- ddsfile's `Caps2` restricted to the single flag the bridge sets. -/
inductive Caps2Flag
  | VOLUME
deriving DecidableEq

inductive D3D10ResourceDimension
  | Texture2D
  | Texture3D
deriving DecidableEq

inductive AlphaMode
  | Unknown
deriving DecidableEq

/-- ddsfile's `NewDxgiParams`, the record `create_dds` fills in to build the
DDS header. -/
structure NewDxgiParams where
  height : Nat
  width : Nat
  depth : Option Nat
  format : DxgiFormat
  mipmap_levels : Option Nat
  array_layers : Option Nat
  caps2 : Option Caps2Flag
  is_cubemap : Bool
  resource_dimension : D3D10ResourceDimension
  alpha_mode : AlphaMode
deriving DecidableEq

/-- The helper closure in `create_dds` (src/dds.rs line 8); its body tests
`x > 0`, despite the name. -/
def some_if_above_one (x : Nat) : Option Nat :=
  if x > 0 then some x else none

/-- The `NewDxgiParams` record built by `create_dds` (src/dds.rs
lines 10-30). -/
def create_dds_params (bntx : BntxFile) : NewDxgiParams :=
  { height := bntx.nx_header.info_ptr.height
    width := bntx.nx_header.info_ptr.width
    depth := some_if_above_one bntx.nx_header.info_ptr.depth
    format := surface_format_to_dxgi bntx.nx_header.info_ptr.format
    mipmap_levels := some_if_above_one bntx.nx_header.info_ptr.mipmap_count
    array_layers := some_if_above_one bntx.nx_header.info_ptr.layer_count
    caps2 :=
      if bntx.nx_header.info_ptr.depth > 1 then some Caps2Flag.VOLUME else none
    is_cubemap := bntx.nx_header.info_ptr.layer_count == 6
    resource_dimension :=
      if bntx.nx_header.info_ptr.depth > 1 then D3D10ResourceDimension.Texture3D
      else D3D10ResourceDimension.Texture2D
    alpha_mode := AlphaMode.Unknown }

/-! ## Writer (src/lib.rs write paths, little-endian byte streams) -/

/-- The BOM bytes the writer emits for each byte order. -/
def bom_bytes : ByteOrder → List Nat
  | .LittleEndian => [0xFF, 0xFE]
  | .BigEndian => [0xFE, 0xFF]

/-- Bytes of one `BntxStr` as binrw writes it: u16 length, the bytes, a null
terminator, padding to a 4-byte boundary (the string section starts 4-aligned
so stream alignment equals alignment relative to the string start). -/
def bntx_str_bytes (s : BntxStr) : List Nat :=
  u16le s.chars.length ++ s.chars ++ [0] ++
    List.replicate (align (2 + s.chars.length + 1) 4 - (2 + s.chars.length + 1)) 0

def bntx_str_list_bytes : List BntxStr → List Nat
  | [] => []
  | s :: rest => bntx_str_bytes s ++ bntx_str_list_bytes rest

/-- The body of `StrSection` before its trailing alignment: magic, block_size,
block_offset, string count, the mandatory empty entry, then the strings. -/
def str_section_base_bytes (s : StrSection) : List Nat :=
  [0x5F, 0x53, 0x54, 0x52] ++ u32le s.block_size ++ u64le s.block_offset ++
    u32le s.strings.length ++ bntx_str_bytes ⟨[]⟩ ++ bntx_str_list_bytes s.strings

/-- `StrSection` as written (with `align_after = 8`; the section starts at the
8-aligned offset 0x1A0 so stream alignment equals length alignment). -/
def str_section_bytes (s : StrSection) : List Nat :=
  str_section_base_bytes s ++
    List.replicate
      (align (str_section_base_bytes s).length 8 - (str_section_base_bytes s).length) 0

/-- `BrtiSection::write_options` (src/lib.rs lines 794-847), parameterized by
the parent's string section size and dict section size: the scalar body, the
texture view dimension, then the eight tail pointers.  Every u64 value is
truncated modulo 2^64 by the 8-byte serializer itself. -/
def brti_write_bytes (s : BrtiSection) (str_size dict_size : Nat) : List Nat :=
  [0x42, 0x52, 0x54, 0x49] ++ u32le s.size ++ u64le s.size2 ++
    [s.flags % 256] ++ [texture_dimension_code s.texture_dimension] ++
    u16le s.tile_mode ++ u16le s.swizzle ++ u16le s.mipmap_count ++
    u32le s.multi_sample_count ++ u32le (surface_format_code s.format) ++
    u32le s.unk2 ++ u32le s.width ++ u32le s.height ++ u32le s.depth ++
    u32le s.layer_count ++ u32le s.block_height_log2 ++
    u32le s.unk4.1 ++ u32le s.unk4.2.1 ++ u32le s.unk4.2.2.1 ++
    u32le s.unk4.2.2.2.1 ++ u32le s.unk4.2.2.2.2.1 ++ u32le s.unk4.2.2.2.2.2 ++
    u32le s.image_size ++ u32le s.align ++ u32le s.comp_sel ++
    u32le (texture_view_dimension_code s.texture_view_dimension) ++
    u64le FILENAME_STR_OFFSET ++
    u64le BNTX_HEADER_SIZE ++
    u64le (START_OF_STR_SECTION + str_size + dict_size + SIZE_OF_BRTI + 0x200) ++
    u64le 0 ++
    u64le (START_OF_STR_SECTION + str_size + dict_size + SIZE_OF_BRTI) ++
    u64le (START_OF_STR_SECTION + str_size + dict_size + SIZE_OF_BRTI + 0x100) ++
    u64le 0 ++
    u64le 0

/-- `BntxHeader::write_options` (src/lib.rs lines 400-426). -/
def bntx_header_bytes (b : BntxFile) : List Nat :=
  [0x42, 0x4E, 0x54, 0x58] ++ u32le 0 ++
    u16le b.header.version.1 ++ u16le b.header.version.2 ++
    bom_bytes b.header.bom ++ u16le b.header.inner.revision ++
    u32le (FILENAME_STR_OFFSET + 2) ++ u16le 0 ++ u16le START_OF_STR_SECTION ++
    u32le (START_OF_TEXTURE_DATA + b.nx_header.info_ptr.texture.image_data.length) ++
    u32le (START_OF_TEXTURE_DATA + b.nx_header.info_ptr.texture.image_data.length
            + reloc_table_get_size b.header.inner.reloc_table)

/-- `NxHeader::write_options` (src/lib.rs lines 601-618). -/
def nx_header_bytes (b : BntxFile) : List Nat :=
  [0x4E, 0x58, 0x20, 0x20] ++ u32le 1 ++
    u64le (HEADER_SIZE + MEM_POOL_SIZE) ++ u64le BRTD_SECTION_START ++
    u64le (START_OF_STR_SECTION + str_section_get_size b.header.inner.str_section) ++
    u64le b.nx_header.dict_size

def u64_list_bytes : List Nat → List Nat
  | [] => []
  | x :: xs => u64le x ++ u64_list_bytes xs

def reloc_section_bytes (s : RelocationSection) : List Nat :=
  u64le s.pointer ++ u32le s.position ++ u32le s.size ++ u32le s.index ++ u32le s.count

def reloc_sections_bytes : List RelocationSection → List Nat
  | [] => []
  | s :: rest => reloc_section_bytes s ++ reloc_sections_bytes rest

def reloc_entry_bytes (e : RelocationEntry) : List Nat :=
  u32le e.position ++ u16le e.struct_count ++ [e.offset_count % 256] ++ [e.padding_count % 256]

def reloc_entries_bytes : List RelocationEntry → List Nat
  | [] => []
  | e :: rest => reloc_entry_bytes e ++ reloc_entries_bytes rest

/-- `RelocationTable` as written; `self_pos` is the stream position of the
`_RLT` magic (binrw computes it as the position after the magic minus 4). -/
def reloc_table_bytes (t : RelocationTable) (self_pos : Nat) : List Nat :=
  [0x5F, 0x52, 0x4C, 0x54] ++ u32le self_pos ++ u32le t.sections.length ++
    List.replicate 4 0 ++ reloc_sections_bytes t.sections ++ reloc_entries_bytes t.entries

/-- The BRTD header: magic, an i32 zero, then the image length plus 0x10. -/
def brtd_header_bytes (image_len : Nat) : List Nat :=
  [0x42, 0x52, 0x54, 0x44] ++ u32le 0 ++ u64le (image_len + 0x10)

/-- The data pointer written between the memory pool and the string section:
the absolute offset of the BRTI section. -/
def data_ptr_value (b : BntxFile) : Nat :=
  START_OF_STR_SECTION + str_section_get_size b.header.inner.str_section
    + dict_section_get_size b.nx_header.dict

/-- Everything `BntxFile::write` emits before the padding that precedes the
BRTD header: both headers, the memory pool, the data pointer, the string and
dict sections, the BRTI section, the 512-byte gap and the mipmap offset
table.  Its length is the stream position `mipmaps_offset` of src/lib.rs
line 115. -/
def write_prefix_bytes (b : BntxFile) : List Nat :=
  bntx_header_bytes b ++ nx_header_bytes b ++ List.replicate MEM_POOL_SIZE 0 ++
    u64le (data_ptr_value b) ++ str_section_bytes b.header.inner.str_section ++
    dict_section_blob ++
    brti_write_bytes b.nx_header.info_ptr
      (str_section_get_size b.header.inner.str_section)
      (dict_section_get_size b.nx_header.dict) ++
    List.replicate 512 0 ++
    u64_list_bytes b.nx_header.info_ptr.texture.mipmap_offsets

/-- `BntxFile::write` (src/lib.rs lines 87-136).  The padding before the BRTD
header is `BRTD_SECTION_START as u64 - mipmaps_offset`, an unchecked u64
subtraction that panics when the stream position exceeds 0xFF0; the panic is
modelled as `none`. -/
def write_bntx (b : BntxFile) : Option (List Nat) :=
  if (write_prefix_bytes b).length ≤ BRTD_SECTION_START then
    some (write_prefix_bytes b ++
      (List.replicate (BRTD_SECTION_START - (write_prefix_bytes b).length) 0 ++
        (brtd_header_bytes b.nx_header.info_ptr.texture.image_data.length ++
          (b.nx_header.info_ptr.texture.image_data ++
            reloc_table_bytes b.header.inner.reloc_table
              (START_OF_TEXTURE_DATA + b.nx_header.info_ptr.texture.image_data.length)))))
  else none

/-- The stream position reached after the mipmap offset table, expressed from
the section sizes: the fixed prefix through the BRTI section and 512-byte
gap, plus 8 bytes per mipmap offset entry. -/
def write_position_after_mipmaps (b : BntxFile) : Nat :=
  START_OF_STR_SECTION + str_section_get_size b.header.inner.str_section
    + dict_section_get_size b.nx_header.dict + SIZE_OF_BRTI + 0x200
    + 8 * b.nx_header.info_ptr.texture.mipmap_offsets.length

/-! ## Reader: the `Texture` parser (src/lib.rs lines 869-879) -/

/-- Outcome of a binrw parse: a Rust panic (an out-of-bounds index), a
structured binrw error (truncated stream), or success. -/
inductive BinResult (α : Type)
  | panicked
  | parse_error
  | ok (value : α)
deriving DecidableEq

/-- Read one little-endian u64 at `pos`, failing on a truncated stream. -/
def read_u64_le (s : List Nat) (pos : Nat) : Option Nat :=
  if pos + 8 ≤ s.length then
    some (s.getD pos 0 + 256 * s.getD (pos + 1) 0 + 65536 * s.getD (pos + 2) 0 +
      16777216 * s.getD (pos + 3) 0 + 2 ^ 32 * s.getD (pos + 4) 0 +
      2 ^ 40 * s.getD (pos + 5) 0 + 2 ^ 48 * s.getD (pos + 6) 0 +
      2 ^ 56 * s.getD (pos + 7) 0)
  else none

/-- Read `n` consecutive little-endian u64 values starting at `pos`. -/
def read_u64_list (s : List Nat) (pos : Nat) : Nat → Option (List Nat)
  | 0 => some []
  | n + 1 =>
    match read_u64_le s pos with
    | none => none
    | some v => (read_u64_list s (pos + 8) n).map (fun rest => v :: rest)

/-- Read exactly `n` bytes at `pos`, failing on a truncated stream. -/
def read_bytes (s : List Nat) (pos n : Nat) : Option (List Nat) :=
  if pos + n ≤ s.length then some ((s.drop pos).take n) else none

/-- The binrw parser of `Texture`: read `mipmap_count` u64 offsets, then seek
to `mipmap_offsets[0]` (a Rust index that panics on an empty vector) and read
`image_size` bytes. -/
def parse_texture (s : List Nat) (pos image_size mipmap_count : Nat) :
    BinResult Texture :=
  match read_u64_list s pos mipmap_count with
  | none => .parse_error
  | some offs =>
    match offs with
    | [] => .panicked
    | o0 :: _ =>
      match read_bytes s o0 image_size with
      | none => .parse_error
      | some data => .ok ⟨offs, data⟩

/-! ## Claims -/

/-- C2, counterexample: the DXGI round-trip fails for `R8G8B8A8Unorm`.
`surface_format_to_dxgi` maps it to `R8G8B8A8_UNorm`, which
`image_format_from_dxgi` does not recognize (only the sRGB variant has an
arm), so the round-trip yields `none` instead of the format itself. -/
theorem c2_round_trip_counterexample :
    image_format_from_dxgi (surface_format_to_dxgi SurfaceFormat.R8G8B8A8Unorm) ≠
      some SurfaceFormat.R8G8B8A8Unorm := by
  decide

/-- C2, amended: for every `SurfaceFormat` other than `R8G8B8A8Unorm`,
converting to DXGI and back with `image_format_from_dxgi` yields the format
again. -/
theorem c2_format_round_trip (f : SurfaceFormat)
    (h : f ≠ SurfaceFormat.R8G8B8A8Unorm) :
    image_format_from_dxgi (surface_format_to_dxgi f) = some f := by
  cases f <;> first | rfl | exact absurd rfl h

/-- Witness for `c2_format_round_trip` at `BC1Unorm`. -/
theorem c2_format_round_trip_witness :
    SurfaceFormat.BC1Unorm ≠ SurfaceFormat.R8G8B8A8Unorm ∧
      image_format_from_dxgi (surface_format_to_dxgi SurfaceFormat.BC1Unorm) =
        some SurfaceFormat.BC1Unorm :=
  ⟨by decide, c2_format_round_trip SurfaceFormat.BC1Unorm (by decide)⟩

/-- C3, counterexample: the string section offset constant is not 0x170. -/
theorem c3_start_of_str_counterexample : START_OF_STR_SECTION ≠ 0x170 := by
  decide

/-- C3, amended: `START_OF_STR_SECTION` equals the sum
`BNTX_HDR + NX_HDR + MEM_POOL + DATA_PTR` of the header-size constants
(0x20 + 0x28 + 0x150 + 8), and this sum equals 0x1A0 (not 0x170). -/
theorem c3_start_of_str_value :
    START_OF_STR_SECTION =
        BNTX_HEADER_SIZE + NX_HEADER_SIZE + MEM_POOL_SIZE + DATA_PTR_SIZE ∧
      START_OF_STR_SECTION = 0x1A0 := by
  decide

/-- C1, evaluation at the failing input: a `BntxFile` built by
`from_image_data` for a 1 by 1 `R8Unorm` image with one mip, one layer and
depth one.  The claim (and the closure's own name `some_if_above_one`)
requires `mipmap_levels`, `depth` and `array_layers` to be absent at value 1,
but the closure tests `x > 0`, so `create_dds` emits all three as
`Some(1)`. -/
theorem c1_create_dds_fields_present_at_one :
    (from_image_data [97] 1 1 1 1 1 SurfaceFormat.R8Unorm [0]).toOption.map
        (fun b =>
          ((create_dds_params b).mipmap_levels, (create_dds_params b).depth,
            (create_dds_params b).array_layers)) =
      some (some 1, some 1, some 1) := by
  rfl

/-- C4, counterexample: `from_image_data` called with depth 2 and layer count
6 succeeds but stores texture dimension `D2` (not `D3`) and texture view
dimension `D2` (not `Cube`); both fields are hardcoded in src/lib.rs. -/
theorem c4_dimension_counterexample :
    (from_image_data [97] 1 1 2 1 6 SurfaceFormat.R8Unorm
          (List.replicate 12 0)).toOption.map
        (fun b =>
          (b.nx_header.info_ptr.texture_dimension,
            b.nx_header.info_ptr.texture_view_dimension)) =
      some (TextureDimension.D2, TextureViewDimension.D2) ∧
    TextureDimension.D2 ≠ TextureDimension.D3 ∧
    TextureViewDimension.D2 ≠ TextureViewDimension.Cube :=
  ⟨by rfl, by decide, by decide⟩

/-- C4, amended: every `BntxFile` returned by `from_image_data` stores
texture dimension `D2` and texture view dimension `D2`, regardless of the
depth and layer count arguments; the claimed invariant (3D when depth
exceeds 1, Cube when the layer count is 6) does not hold. -/
theorem c4_from_image_data_dimensions (name : List Nat) (w h d mc lc : Nat)
    (fmt : SurfaceFormat) (data : List Nat) :
    (from_image_data name w h d mc lc fmt data).map
        (fun b => b.nx_header.info_ptr.texture_dimension) =
      (from_image_data name w h d mc lc fmt data).map
        (fun _ => TextureDimension.D2) ∧
    (from_image_data name w h d mc lc fmt data).map
        (fun b => b.nx_header.info_ptr.texture_view_dimension) =
      (from_image_data name w h d mc lc fmt data).map
        (fun _ => TextureViewDimension.D2) := by
  constructor <;>
    · unfold from_image_data
      dsimp only
      split <;> rfl

/-- C5, evaluation at the failing input: a DDS with no DXGI format, no D3D
format and an unrecognized FourCC.  `dds_image_format` returns `None`, and
`create_bntx` then panics on `Option::unwrap` (modelled as the outer `none`)
instead of returning a structured error. -/
theorem c5_unrecognized_format_panics :
    dds_image_format
        ⟨1, 1, 1, 1, none, none, none, some (fourcc_code 0x58 0x58 0x58 0x58), []⟩ =
      none ∧
    create_bntx [97]
        ⟨1, 1, 1, 1, none, none, none, some (fourcc_code 0x58 0x58 0x58 0x58), []⟩ =
      none :=
  ⟨by rfl, by rfl⟩

/-- C6, counterexample: the multiplication by 6 is a u32 multiplication.
For a cubemap-flagged DDS with `array_size = 715827883`, the product
6 * 715827883 = 2^32 + 2 wraps to 2; the import succeeds (a 2-byte R8
payload matches the wrapped layer count) and stores layer count 2, not
715827883 * 6 as the claim states. -/
theorem c6_layer_count_counterexample :
    (create_bntx [97]
          ⟨1, 1, 1, 1, some ⟨4, 715827883⟩, some DxgiFormat.R8_UNorm, none, none,
            [0, 0]⟩).map
        (Except.map (fun b => b.nx_header.info_ptr.layer_count)) =
      some (Except.ok 2) ∧
    (2 : Nat) ≠ 715827883 * 6 :=
  ⟨by rfl, by decide⟩

/-- C6, amended: for every DDS imported by `create_bntx`, the layer count
stored in the resulting `BntxFile` (the value passed to `from_image_data`)
equals the DDS's number of array layers multiplied by 6 and reduced modulo
2^32 (the source multiplies u32 values, which wraps in release builds and
panics in debug builds) when the DDS is flagged as a cubemap, and equals the
number of array layers unchanged otherwise. -/
theorem c6_create_bntx_layer_count (name : List Nat) (dds : Dds) :
    (create_bntx name dds).map
        (Except.map (fun b => b.nx_header.info_ptr.layer_count)) =
      (create_bntx name dds).map
        (Except.map (fun _ =>
          if dds_cubemap_flagged dds then dds_num_array_layers dds * 6 % 2 ^ 32
          else dds_num_array_layers dds)) := by
  unfold create_bntx
  cases dds_image_format dds with
  | none => rfl
  | some fmt =>
    simp only [Option.map_some]
    unfold from_image_data layer_count
    dsimp only
    split <;> rfl

/-! ### Mipmap offset table lemmas -/

theorem mipmap_offsets_aux_length (w : Nat) (bd : BlockDim) (h d bh bpp : Nat) :
    ∀ n mip off, (mipmap_offsets_aux w bd h d bh bpp n mip off).length = n := by
  intro n
  induction n with
  | zero => intro mip off; rfl
  | succ m ih =>
    intro mip off
    simp only [mipmap_offsets_aux, List.length_cons, ih]

theorem sum_mip_sizes_from_succ_right (w : Nat) (bd : BlockDim) (h d bh bpp : Nat) :
    ∀ n mip, sum_mip_sizes_from w bd h d bh bpp mip (n + 1) =
      sum_mip_sizes_from w bd h d bh bpp mip n + mip_size_at w bd h d bh bpp (mip + n) := by
  intro n
  induction n with
  | zero =>
    intro mip
    simp [sum_mip_sizes_from]
  | succ k ih =>
    intro mip
    have hidx : mip + 1 + k = mip + (k + 1) := by omega
    calc sum_mip_sizes_from w bd h d bh bpp mip (k + 1 + 1)
        = mip_size_at w bd h d bh bpp mip
            + sum_mip_sizes_from w bd h d bh bpp (mip + 1) (k + 1) := rfl
      _ = mip_size_at w bd h d bh bpp mip
            + (sum_mip_sizes_from w bd h d bh bpp (mip + 1) k
                + mip_size_at w bd h d bh bpp (mip + 1 + k)) := by rw [ih]
      _ = sum_mip_sizes_from w bd h d bh bpp mip (k + 1)
            + mip_size_at w bd h d bh bpp (mip + (k + 1)) := by
          rw [hidx]
          show _ = mip_size_at w bd h d bh bpp mip
              + sum_mip_sizes_from w bd h d bh bpp (mip + 1) k
              + mip_size_at w bd h d bh bpp (mip + (k + 1))
          omega

theorem mipmap_offsets_aux_get (w : Nat) (bd : BlockDim) (h d bh bpp : Nat) :
    ∀ n mip off k, k < n →
      START_OF_TEXTURE_DATA + off + sum_mip_sizes_from w bd h d bh bpp mip n < U64_MOD →
      (mipmap_offsets_aux w bd h d bh bpp n mip off).get? k =
        some (START_OF_TEXTURE_DATA + off + sum_mip_sizes_from w bd h d bh bpp mip k) := by
  intro n
  induction n with
  | zero => intro mip off k hk; omega
  | succ m ih =>
    intro mip off k hk hov
    have hsum :
        sum_mip_sizes_from w bd h d bh bpp mip (m + 1) =
          mip_size_at w bd h d bh bpp mip
            + sum_mip_sizes_from w bd h d bh bpp (mip + 1) m := rfl
    rw [hsum] at hov
    have h1 : (START_OF_TEXTURE_DATA + off) % U64_MOD = START_OF_TEXTURE_DATA + off :=
      Nat.mod_eq_of_lt (by omega)
    cases k with
    | zero =>
      simp [mipmap_offsets_aux, h1, sum_mip_sizes_from]
    | succ j =>
      have hj : j < m := by omega
      have h2 : (off + mip_size_at w bd h d bh bpp mip) % U64_MOD =
          off + mip_size_at w bd h d bh bpp mip :=
        Nat.mod_eq_of_lt (by omega)
      have := ih (mip + 1) (off + mip_size_at w bd h d bh bpp mip) j hj (by omega)
      simp only [mipmap_offsets_aux, List.get?_cons_succ, h2, this,
        sum_mip_sizes_from]
      congr 1
      omega

/-- C7: the mipmap offset table computed by `calculate_mipmap_offsets` has
exactly `mipmap_count` entries; entry 0 equals `START_OF_TEXTURE_DATA`
(0x1000); and each pair of consecutive entries differs by the swizzled size
of the earlier mip under the per-mip geometry rule (`mip_size_at`).  The
hypothesis rules out u64 wrap-around of the accumulated offsets. -/
theorem c7_calculate_mipmap_offsets (mc w : Nat) (bd : BlockDim) (h d bh bpp : Nat)
    (hov : START_OF_TEXTURE_DATA + sum_mip_sizes_from w bd h d bh bpp 0 mc < U64_MOD) :
    (calculate_mipmap_offsets mc w bd h d bh bpp).length = mc ∧
    (0 < mc →
      (calculate_mipmap_offsets mc w bd h d bh bpp).get? 0 =
        some START_OF_TEXTURE_DATA) ∧
    (∀ i a c, (calculate_mipmap_offsets mc w bd h d bh bpp).get? i = some a →
      (calculate_mipmap_offsets mc w bd h d bh bpp).get? (i + 1) = some c →
      c - a = mip_size_at w bd h d bh bpp i) := by
  have hov0 : START_OF_TEXTURE_DATA + 0 + sum_mip_sizes_from w bd h d bh bpp 0 mc
      < U64_MOD := by omega
  refine ⟨mipmap_offsets_aux_length w bd h d bh bpp mc 0 0, ?_, ?_⟩
  · intro hmc
    have := mipmap_offsets_aux_get w bd h d bh bpp mc 0 0 0 hmc hov0
    simpa [calculate_mipmap_offsets, sum_mip_sizes_from] using this
  · intro i a c ha hc
    have hlen : (calculate_mipmap_offsets mc w bd h d bh bpp).length = mc :=
      mipmap_offsets_aux_length w bd h d bh bpp mc 0 0
    have hi1 : i + 1 < mc := by
      have := (List.get?_eq_some.mp hc).1
      omega
    have hi : i < mc := by omega
    have ha2 := mipmap_offsets_aux_get w bd h d bh bpp mc 0 0 i hi hov0
    have hc2 := mipmap_offsets_aux_get w bd h d bh bpp mc 0 0 (i + 1) hi1 hov0
    rw [calculate_mipmap_offsets] at ha hc
    rw [ha2] at ha
    rw [hc2] at hc
    have hav : a = START_OF_TEXTURE_DATA + 0 + sum_mip_sizes_from w bd h d bh bpp 0 i :=
      (Option.some.injEq _ _ ▸ ha).symm
    have hcv : c = START_OF_TEXTURE_DATA + 0
        + sum_mip_sizes_from w bd h d bh bpp 0 (i + 1) :=
      (Option.some.injEq _ _ ▸ hc).symm
    have hstep := sum_mip_sizes_from_succ_right w bd h d bh bpp i 0
    have hidx : (0 : Nat) + i = i := by omega
    rw [hidx] at hstep
    omega

/-- Witness for `c7_calculate_mipmap_offsets`: a 2-mip 8 by 8 uncompressed
surface with 4 bytes per pixel; both mips swizzle to 512 bytes, so the table
is [0x1000, 0x1200]. -/
theorem c7_calculate_mipmap_offsets_witness :
    (calculate_mipmap_offsets 2 8 ⟨1, 1, 1⟩ 8 1 1 4).length = 2 ∧
    (calculate_mipmap_offsets 2 8 ⟨1, 1, 1⟩ 8 1 1 4).get? 0 =
      some START_OF_TEXTURE_DATA ∧
    (0x1200 : Nat) - 0x1000 = mip_size_at 8 ⟨1, 1, 1⟩ 8 1 1 4 0 := by
  have H := c7_calculate_mipmap_offsets 2 8 ⟨1, 1, 1⟩ 8 1 1 4 (by decide)
  exact ⟨H.1, H.2.1 (by decide),
    H.2.2 0 0x1000 0x1200 (by decide) (by decide)⟩

/-! ### Texture parser lemmas -/

theorem read_u64_list_length (s : List Nat) :
    ∀ n pos offs, read_u64_list s pos n = some offs → offs.length = n := by
  intro n
  induction n with
  | zero =>
    intro pos offs hr
    simp only [read_u64_list, Option.some.injEq] at hr
    simp [← hr]
  | succ m ih =>
    intro pos offs hr
    simp only [read_u64_list] at hr
    cases hv : read_u64_le s pos with
    | none =>
      rw [hv] at hr
      exact Option.noConfusion hr
    | some v =>
      rw [hv] at hr
      cases hrest : read_u64_list s (pos + 8) m with
      | none =>
        rw [hrest] at hr
        exact Option.noConfusion hr
      | some rest =>
        rw [hrest] at hr
        have h2 : some (v :: rest) = some offs := hr
        injection h2 with h3
        rw [← h3]
        simp [ih (pos + 8) rest hrest]

theorem parse_texture_eq_of_none (s : List Nat) (pos isz mc : Nat)
    (hr : read_u64_list s pos mc = none) :
    parse_texture s pos isz mc = BinResult.parse_error := by
  unfold parse_texture
  rw [hr]

theorem parse_texture_eq_of_cons (s : List Nat) (pos isz mc o0 : Nat) (rest : List Nat)
    (hr : read_u64_list s pos mc = some (o0 :: rest)) :
    parse_texture s pos isz mc =
      match read_bytes s o0 isz with
      | none => BinResult.parse_error
      | some data => BinResult.ok ⟨o0 :: rest, data⟩ := by
  unfold parse_texture
  rw [hr]

/-- C9: parsing a `Texture` is total exactly when `mipmap_count` is at least
1.  With `mipmap_count = 0` the parser reads an empty offset table and the
`mipmap_offsets[0]` index panics rather than producing a structured error;
with `mipmap_count ≥ 1` the parser never panics, and on success it has read
`mipmap_count` u64 offsets and exactly `image_size` bytes taken at offset
`mipmap_offsets[0]` of the stream. -/
theorem c9_parse_texture_totality (s : List Nat) (pos isz mc : Nat) :
    (mc = 0 → parse_texture s pos isz mc = BinResult.panicked) ∧
    (1 ≤ mc →
      parse_texture s pos isz mc ≠ BinResult.panicked ∧
      ∀ t, parse_texture s pos isz mc = BinResult.ok t →
        t.mipmap_offsets.length = mc ∧
        ∀ o0, t.mipmap_offsets.head? = some o0 →
          t.image_data = (s.drop o0).take isz ∧ t.image_data.length = isz) := by
  constructor
  · intro h
    subst h
    rfl
  · intro hmc
    cases hr : read_u64_list s pos mc with
    | none =>
      have hres := parse_texture_eq_of_none s pos isz mc hr
      refine ⟨?_, ?_⟩
      · rw [hres]
        exact fun hcon => BinResult.noConfusion hcon
      · intro t ht
        rw [hres] at ht
        exact BinResult.noConfusion ht
    | some offs =>
      have hlen := read_u64_list_length s mc pos offs hr
      cases offs with
      | nil =>
        rw [List.length_nil] at hlen
        omega
      | cons o0 rest =>
        have heq := parse_texture_eq_of_cons s pos isz mc o0 rest hr
        cases hb : read_bytes s o0 isz with
        | none =>
          rw [hb] at heq
          refine ⟨?_, ?_⟩
          · rw [heq]
            exact fun hcon => BinResult.noConfusion hcon
          · intro t ht
            rw [heq] at ht
            exact BinResult.noConfusion ht
        | some data =>
          rw [hb] at heq
          refine ⟨?_, ?_⟩
          · rw [heq]
            exact fun hcon => BinResult.noConfusion hcon
          · intro t ht
            rw [heq] at ht
            injection ht with h4
            subst h4
            refine ⟨hlen, ?_⟩
            intro o0h ho
            have ho2 : o0 = o0h := by simpa using ho
            subst ho2
            unfold read_bytes at hb
            by_cases hok : o0 + isz ≤ s.length
            case pos =>
              rw [if_pos hok] at hb
              injection hb with hdata
              constructor
              · exact hdata.symm
              · rw [← hdata]
                simp only [List.length_take, List.length_drop]
                omega
            case neg =>
              rw [if_neg hok] at hb
              exact Option.noConfusion hb

/-- Witness for `c9_parse_texture_totality`: a 10-byte stream whose single
offset entry is 8 and whose image bytes are the final two bytes. -/
theorem c9_parse_texture_witness :
    parse_texture [8, 0, 0, 0, 0, 0, 0, 0, 7, 7] 0 2 0 = BinResult.panicked ∧
    parse_texture [8, 0, 0, 0, 0, 0, 0, 0, 7, 7] 0 2 1 ≠ BinResult.panicked :=
  ⟨(c9_parse_texture_totality [8, 0, 0, 0, 0, 0, 0, 0, 7, 7] 0 2 0).1 rfl,
    ((c9_parse_texture_totality [8, 0, 0, 0, 0, 0, 0, 0, 7, 7] 0 2 1).2 (by decide)).1⟩

/-! ### Writer length lemmas -/

theorem u16le_length (n : Nat) : (u16le n).length = 2 := rfl

theorem u32le_length (n : Nat) : (u32le n).length = 4 := rfl

theorem u64le_length (n : Nat) : (u64le n).length = 8 := rfl

theorem bom_bytes_length (b : ByteOrder) : (bom_bytes b).length = 2 := by
  cases b <;> rfl

theorem bntx_str_bytes_length (s : BntxStr) :
    (bntx_str_bytes s).length = bntx_str_get_size s := by
  unfold bntx_str_bytes bntx_str_get_size align
  simp only [List.length_append, List.length_replicate, u16le_length,
    List.length_cons, List.length_nil]
  omega

theorem bntx_str_list_bytes_length (l : List BntxStr) :
    (bntx_str_list_bytes l).length = (l.map bntx_str_get_size).sum := by
  induction l with
  | nil => rfl
  | cons s rest ih =>
    simp [bntx_str_list_bytes, List.length_append, bntx_str_bytes_length, ih]

theorem str_section_base_bytes_length (s : StrSection) :
    (str_section_base_bytes s).length = 24 + (s.strings.map bntx_str_get_size).sum := by
  unfold str_section_base_bytes
  simp only [List.length_append, u32le_length, u64le_length, List.length_cons,
    List.length_nil, bntx_str_bytes_length, bntx_str_list_bytes_length]
  simp [bntx_str_get_size, align]

theorem str_section_bytes_length (s : StrSection) :
    (str_section_bytes s).length = str_section_get_size s := by
  unfold str_section_bytes str_section_get_size
  simp only [List.length_append, List.length_replicate, str_section_base_bytes_length,
    EMPTY_STR_SIZE]
  unfold align
  omega

theorem brti_write_bytes_length (s : BrtiSection) (a b : Nat) :
    (brti_write_bytes s a b).length = SIZE_OF_BRTI := by
  unfold brti_write_bytes
  simp only [List.length_append, List.length_cons, List.length_nil, u32le_length,
    u16le_length, u64le_length]
  rfl

theorem dict_section_blob_length : dict_section_blob.length = 40 := rfl

theorem bntx_header_bytes_length (b : BntxFile) :
    (bntx_header_bytes b).length = BNTX_HEADER_SIZE := by
  unfold bntx_header_bytes
  simp only [List.length_append, u32le_length, u16le_length, bom_bytes_length,
    List.length_cons, List.length_nil]
  rfl

theorem nx_header_bytes_length (b : BntxFile) :
    (nx_header_bytes b).length = NX_HEADER_SIZE := rfl

theorem u64_list_bytes_length (l : List Nat) :
    (u64_list_bytes l).length = 8 * l.length := by
  induction l with
  | nil => rfl
  | cons x xs ih =>
    simp only [u64_list_bytes, List.length_append, u64le_length, ih, List.length_cons]
    omega

theorem write_prefix_bytes_length (b : BntxFile) :
    (write_prefix_bytes b).length = write_position_after_mipmaps b := by
  unfold write_prefix_bytes write_position_after_mipmaps
  simp only [List.length_append, bntx_header_bytes_length, nx_header_bytes_length,
    List.length_replicate, u64le_length, str_section_bytes_length,
    dict_section_blob_length, brti_write_bytes_length, u64_list_bytes_length,
    dict_section_get_size]
  simp only [BNTX_HEADER_SIZE, NX_HEADER_SIZE, MEM_POOL_SIZE, SIZE_OF_BRTI,
    START_OF_STR_SECTION, HEADER_SIZE, DATA_PTR_SIZE, dict_section_blob_length]
  try omega

/-! ### BRTI tail pointers -/

/-- C8: when the Writer serializes a `BrtiSection` the output is exactly
`SIZE_OF_BRTI` (0xA0) bytes, and the bytes after the 96-byte scalar body and
`texture_view_dimension` are exactly eight u64 values in this order:
`FILENAME_STR_OFFSET`, 0x20, `START_OF_STR + str.size + dict.size +
SIZE_OF_BRTI + 0x200`, 0, `START_OF_STR + str.size + dict.size +
SIZE_OF_BRTI`, `START_OF_STR + str.size + dict.size + SIZE_OF_BRTI + 0x100`,
0, 0, where the section sizes are the `get_size` query results. -/
theorem c8_brti_tail_pointers (s : BrtiSection) (str : StrSection) (dict : DictSection) :
    (brti_write_bytes s (str_section_get_size str) (dict_section_get_size dict)).length
        = SIZE_OF_BRTI ∧
    (brti_write_bytes s (str_section_get_size str) (dict_section_get_size dict)).drop 96 =
      u64le FILENAME_STR_OFFSET ++
      u64le BNTX_HEADER_SIZE ++
      u64le (START_OF_STR_SECTION + str_section_get_size str + dict_section_get_size dict
              + SIZE_OF_BRTI + 0x200) ++
      u64le 0 ++
      u64le (START_OF_STR_SECTION + str_section_get_size str + dict_section_get_size dict
              + SIZE_OF_BRTI) ++
      u64le (START_OF_STR_SECTION + str_section_get_size str + dict_section_get_size dict
              + SIZE_OF_BRTI + 0x100) ++
      u64le 0 ++
      u64le 0 := by
  constructor
  · unfold brti_write_bytes
    simp only [List.length_append, List.length_cons, List.length_nil, u32le_length,
      u16le_length, u64le_length]
    rfl
  · unfold brti_write_bytes
    simp only [List.append_assoc]
    rfl


/-- C10: `BntxFile::write` succeeds (up to I/O errors) exactly when the
stream position reached after the mipmap offset table, a bound determined by
the string-section size and the number of mipmap offset entries, is at most
`BRTD_SECTION_START` (0xFF0); the unchecked u64 subtraction makes it panic
otherwise (modelled as `none`).  On success the bytes from that position up
to 0xFF0 are the zero padding and the BRTD magic sits at 0xFF0. -/
theorem c10_write_padding_bound (b : BntxFile) :
    ((write_bntx b).isSome ↔ write_position_after_mipmaps b ≤ BRTD_SECTION_START) ∧
    ((write_bntx b).map (fun out =>
        (out.drop (write_position_after_mipmaps b)).take
          (BRTD_SECTION_START - write_position_after_mipmaps b)) =
      (write_bntx b).map (fun _ =>
        List.replicate (BRTD_SECTION_START - write_position_after_mipmaps b) 0)) ∧
    ((write_bntx b).map (fun out => (out.drop BRTD_SECTION_START).take 4) =
      (write_bntx b).map (fun _ => [0x42, 0x52, 0x54, 0x44])) := by
  have hlen := write_prefix_bytes_length b
  by_cases hle : (write_prefix_bytes b).length ≤ BRTD_SECTION_START
  · have hw : write_bntx b =
        some (write_prefix_bytes b ++
          (List.replicate (BRTD_SECTION_START - (write_prefix_bytes b).length) 0 ++
            (brtd_header_bytes b.nx_header.info_ptr.texture.image_data.length ++
              (b.nx_header.info_ptr.texture.image_data ++
                reloc_table_bytes b.header.inner.reloc_table
                  (START_OF_TEXTURE_DATA +
                    b.nx_header.info_ptr.texture.image_data.length))))) := by
      unfold write_bntx
      rw [if_pos hle]
    refine ⟨?_, ?_, ?_⟩
    · rw [hw]
      exact iff_of_true rfl (by omega)
    · rw [hw]
      simp only [Option.map_some, Option.map_some', Option.some.injEq]
      rw [← hlen, List.drop_left]
      exact List.take_left'
        (List.length_replicate (BRTD_SECTION_START - (write_prefix_bytes b).length) 0)
    · rw [hw, ← List.append_assoc]
      simp only [Option.map_some, Option.map_some', Option.some.injEq]
      have h2 : (write_prefix_bytes b ++
          List.replicate (BRTD_SECTION_START - (write_prefix_bytes b).length) 0).length =
            BRTD_SECTION_START := by
        simp only [List.length_append, List.length_replicate]
        omega
      rw [List.drop_left' h2]
      rfl
  · have hw : write_bntx b = none := by
      unfold write_bntx
      rw [if_neg hle]
    rw [hw]
    exact ⟨iff_of_false (by simp) (by omega), rfl, rfl⟩

end Bntx
